import Mathlib

/-!
# Verification of the Arca Music transport coordinator

A shallow embedding of the playback/transport logic of `src/main.rs`
(`MediaPlayerApp`). Wall-clock instants and audio times (`f32` seconds in
the source) are modelled as rationals; the external collaborators (the
`rodio` sink, the filesystem, the ID3 tag reader, the folder picker) are
modelled by explicit oracle arguments describing what each call would
return. Operations whose Rust code can panic (`Decoder::new(..).expect`,
`Duration::from_secs_f32` on a negative argument) return `Option`, with
`none` standing for the panic.
-/

/-- One filesystem entry as seen by `fs::read_dir`: its path, whether it is
a regular file (`path.is_file()`), and its extension (`path.extension()`,
`none` when the file name has no extension). -/
structure DirEntry where
  path : String
  isFile : Bool
  extension : Option String
deriving DecidableEq, Repr

/-- The ID3 tag data relevant to `load_song`: `tag.title()` and
`tag.artist()`, each possibly absent. -/
structure TagData where
  title : Option String
  artist : Option String
deriving DecidableEq, Repr

/-- What the external collaborators report for one audio file path:
whether `File::open` succeeds, the result of `Tag::read_from_path`
(`none` = tag read failure), the result of `mp3_duration::from_file`
(`none` = error), whether `Decoder::new` succeeds, the decoder-reported
`total_duration()` (`none` when the decoder reports no duration), and the
bare file name `path.file_name()`. -/
structure FileInfo where
  opens : Bool
  tag : Option TagData
  mp3Duration : Option ℚ
  decodes : Bool
  decoderDuration : Option ℚ
  fileName : String
deriving DecidableEq, Repr

/-- The `MediaPlayerApp` state (`src/main.rs` lines 17-32), restricted to
the fields the transport logic reads or writes. `sinkPresent` models
whether the `sink : Option<Arc<Mutex<Sink>>>` field is `Some`; the audio queue of the sink lives in the external engine and is not observable here.
`start_time` is the wall-clock anchor `Option<Instant>` as a rational
instant. -/
structure MediaPlayerApp where
  song_title : String
  artist_name : String
  sinkPresent : Bool
  current_time : ℚ
  total_time : ℚ
  start_time : Option ℚ
  volume : ℚ
  songs : List String
  selected_song : Option Nat
  current_directory : String
  is_playing : Bool
  song_finished : Bool
deriving DecidableEq, Repr

namespace MediaPlayerApp

/-- Loop body of `read_songs_from_directory` (lines 103-110): iterate over
the `read_dir` entries, `flatten()` dropping per-entry errors (`none`),
and push the path of every entry that is a file with extension `"mp3"`
(`path.extension().map(|ext| ext == "mp3").unwrap_or(false)`). -/
def scanLoop : List (Option DirEntry) → List String → List String
  | [], songs => songs
  | none :: rest, songs => scanLoop rest songs
  | some e :: rest, songs =>
      if e.isFile && (e.extension.map (fun ext => ext == "mp3")).getD false then
        scanLoop rest (songs ++ [e.path])
      else
        scanLoop rest songs

/-- Source `MediaPlayerApp::read_songs_from_directory` (lines 101-112). The
argument is what `fs::read_dir` yields for the directory: `none` when the
directory cannot be read (the `if let Ok` falls through and the empty
vector is returned), otherwise the ordered list of entry results, each
`none` when that entry errored (skipped by `flatten()`). -/
def read_songs_from_directory (listing : Option (List (Option DirEntry))) : List String :=
  match listing with
  | none => []
  | some entries => scanLoop entries []

/-- Source `MediaPlayerApp::stop_current_song` (lines 153-159): stop the sink
(an external engine effect), clear the playing flag, reset elapsed time. -/
def stop_current_song (s : MediaPlayerApp) : MediaPlayerApp :=
  { s with is_playing := false, current_time := 0 }

/-- Source `MediaPlayerApp::stop` (lines 149-151). -/
def stop (s : MediaPlayerApp) : MediaPlayerApp :=
  s.stop_current_song

/-- Source `MediaPlayerApp::play` (lines 140-147): when the sink is present,
resume it, re-apply the volume (engine effects), record the wall-clock
anchor `Instant::now()` (the `now` argument) and set the playing flag. -/
def play (now : ℚ) (s : MediaPlayerApp) : MediaPlayerApp :=
  if s.sinkPresent then
    { s with start_time := some now, is_playing := true }
  else s

/-- Source `MediaPlayerApp::load_song` (lines 161-204), with `disk` reporting the
behaviour of the external collaborators per path. Returns `none` when the Rust
code would panic: `Decoder::new(..).expect("Failed to decode audio")`
aborts when decoding fails. Note the `mp3_duration` assignment to
`total_time` (lines 176-184) is immediately overwritten by the
decoder-reported duration (lines 189-192). -/
def load_song (disk : String → FileInfo) (s : MediaPlayerApp) : Option MediaPlayerApp :=
  match s.selected_song with
  | none => some s
  | some index =>
    match s.songs.get? index with
    | none => some s
    | some path =>
      if s.sinkPresent then
        let info := disk path
        if info.opens then
          let s1 :=
            match info.tag with
            | some tag =>
              { s with
                song_title := tag.title.getD "Unknown Title",
                artist_name := tag.artist.getD "Unknown Artist" }
            | none =>
              { s with
                song_title := info.fileName,
                artist_name := "Unknown Artist" }
          let s2 := { s1 with total_time := info.mp3Duration.getD 0 }
          if info.decodes then
            let s3 := { s2 with total_time := info.decoderDuration.getD 0 }
            some { s3 with current_time := 0, song_finished := false }
          else
            none
        else
          some { s with
                 song_title := "Failed to load song",
                 artist_name := "Unknown Artist" }
      else some s

/-- Source `MediaPlayerApp::load_and_play_song` (lines 134-138): stop the current
song, load the new one, then play it. -/
def load_and_play_song (disk : String → FileInfo) (now : ℚ)
    (s : MediaPlayerApp) : Option MediaPlayerApp :=
  (load_song disk s.stop_current_song).map (play now)

/-- Source `MediaPlayerApp::next_song` (lines 123-132): advance the selection
when a successor index exists, otherwise stop playback. -/
def next_song (disk : String → FileInfo) (now : ℚ)
    (s : MediaPlayerApp) : Option MediaPlayerApp :=
  match s.selected_song with
  | none => some s
  | some current_index =>
    if current_index + 1 < s.songs.length then
      load_and_play_song disk now { s with selected_song := some (current_index + 1) }
    else
      some s.stop

/-- Source `MediaPlayerApp::previous_song` (lines 114-121). -/
def previous_song (disk : String → FileInfo) (now : ℚ)
    (s : MediaPlayerApp) : Option MediaPlayerApp :=
  match s.selected_song with
  | none => some s
  | some current_index =>
    if current_index > 0 then
      load_and_play_song disk now { s with selected_song := some (current_index - 1) }
    else
      some s

/-- Source `MediaPlayerApp::update_directory` (lines 213-221); `pick` is the
result of `FileDialog::new().pick_folder()` combined with
`directory.to_str()`: `none` when the dialog is cancelled or the path is
not valid UTF-8 (both leave the state untouched); `fsys` maps a directory
path to its `fs::read_dir` outcome. -/
def update_directory (pick : Option String)
    (fsys : String → Option (List (Option DirEntry)))
    (s : MediaPlayerApp) : MediaPlayerApp :=
  match pick with
  | none => s
  | some dir_str =>
    { s with
      current_directory := dir_str,
      songs := read_songs_from_directory (fsys dir_str),
      selected_song := none }

/-- Source `MediaPlayerApp::update_progress` (lines 223-226). -/
def update_progress (value : ℚ) (s : MediaPlayerApp) : MediaPlayerApp :=
  { s with current_time := value }

/-- Source `MediaPlayerApp::update_time` (lines 228-243): when an anchor exists,
take the wall-clock delta `start_time.elapsed()` (= `now - start_time`),
scale it by `total_time / 10` for tracks of at most 10 seconds, add it to
`current_time` capped by `total_time` via `f32::min`, and re-anchor at
`Instant::now()` (= `now`). -/
def update_time (now : ℚ) (s : MediaPlayerApp) : MediaPlayerApp :=
  match s.start_time with
  | none => s
  | some start_time =>
    let elapsed := now - start_time
    let normalized_elapsed :=
      if s.total_time ≤ 10 then elapsed * (s.total_time / 10) else elapsed
    { s with
      current_time := min (s.current_time + normalized_elapsed) s.total_time,
      start_time := some now }

/-- Source `MediaPlayerApp::pause` (lines 251-257). -/
def pause (s : MediaPlayerApp) : MediaPlayerApp :=
  if s.sinkPresent then
    { s with is_playing := false, start_time := none }
  else s

/-- Source `MediaPlayerApp::seek` (lines 259-282): with a valid selection and a
sink, stop the sink, reopen and re-decode the file, skip the stream
forward by `Duration::from_secs_f32(position)` and set
`current_time := position.min(total_time)`. Returns `none` where the Rust
code panics: `Decoder::new(..).expect` on decode failure, and
`Duration::from_secs_f32` on a negative `position`. A failed `File::open`
silently skips the whole block (after the sink was already stopped). -/
def seek (disk : String → FileInfo) (position : ℚ)
    (s : MediaPlayerApp) : Option MediaPlayerApp :=
  match s.selected_song with
  | none => some s
  | some index =>
    match s.songs.get? index with
    | none => some s
    | some path =>
      if s.sinkPresent then
        if (disk path).opens then
          if (disk path).decodes then
            if position < 0 then none
            else some { s with current_time := min position s.total_time }
          else none
        else some s
      else some s

/-- Iterated `update_time` over a list of tick instants, in order. -/
def ticks (s : MediaPlayerApp) : List ℚ → MediaPlayerApp
  | [] => s
  | now :: rest => ticks (update_time now s) rest

/-- The wall clock never runs backwards: an `Instant` anchor, when present,
is at or before the instant of the next call (`Instant::elapsed` is
non-negative by construction in Rust). -/
def anchorLe (s : MediaPlayerApp) (n : ℚ) : Prop :=
  match s.start_time with
  | none => True
  | some a => a ≤ n

instance (s : MediaPlayerApp) (n : ℚ) : Decidable (anchorLe s n) := by
  unfold anchorLe
  cases s.start_time with
  | none => exact isTrue trivial
  | some a => exact inferInstanceAs (Decidable (a ≤ n))

/-- A list of tick instants is admissible for a starting state when each
instant is at or after the anchor the state holds when that tick runs
(wall-clock monotonicity across the sequence of `update_time` calls). -/
def ticksMonotone : List ℚ → MediaPlayerApp → Prop
  | [], _ => True
  | n :: rest, s => anchorLe s n ∧ ticksMonotone rest (update_time n s)

def ticksMonotoneDec : (ns : List ℚ) → (s : MediaPlayerApp) → Decidable (ticksMonotone ns s)
  | [], _ => isTrue trivial
  | n :: rest, s =>
      have : Decidable (ticksMonotone rest (update_time n s)) := ticksMonotoneDec rest _
      inferInstanceAs (Decidable (_ ∧ _))

instance (ns : List ℚ) (s : MediaPlayerApp) : Decidable (ticksMonotone ns s) :=
  ticksMonotoneDec ns s

end MediaPlayerApp

open MediaPlayerApp

/-- Helper: one `update_time` call keeps the elapsed time within
`[0, total_time]` and leaves `total_time` unchanged, as long as the state
already satisfies the lower half and the instant is not before the anchor. -/
theorem update_time_step (s : MediaPlayerApp) (now : ℚ)
    (h0 : 0 ≤ s.current_time) (h1 : s.current_time ≤ s.total_time)
    (ha : anchorLe s now) :
    0 ≤ (update_time now s).current_time ∧
      (update_time now s).current_time ≤ (update_time now s).total_time ∧
      (update_time now s).total_time = s.total_time := by
  have htot : 0 ≤ s.total_time := le_trans h0 h1
  cases hs : s.start_time with
  | none =>
      simp only [update_time, hs]
      exact ⟨h0, h1, trivial⟩
  | some a =>
      have hanow : a ≤ now := by
        simpa [anchorLe, hs] using ha
      have hd : 0 ≤ now - a := sub_nonneg.mpr hanow
      have hnorm : 0 ≤ if s.total_time ≤ 10 then (now - a) * (s.total_time / 10) else now - a := by
        split
        · exact mul_nonneg hd (div_nonneg htot (by norm_num))
        · exact hd
      simp only [update_time, hs]
      exact ⟨le_min (add_nonneg h0 hnorm) htot, min_le_right _ _, trivial⟩

/-- Helper: the `[0, total_time]` invariant is preserved by any admissible
sequence of tick calls. -/
theorem ticks_inv : ∀ (ns : List ℚ) (s : MediaPlayerApp),
    0 ≤ s.current_time → s.current_time ≤ s.total_time → ticksMonotone ns s →
    0 ≤ (ticks s ns).current_time ∧ (ticks s ns).current_time ≤ (ticks s ns).total_time
  | [], s, h0, h1, _ => ⟨h0, h1⟩
  | n :: rest, s, h0, h1, hm => by
      obtain ⟨han, hrest⟩ := hm
      obtain ⟨g0, g1, _⟩ := update_time_step s n h0 h1 han
      exact ticks_inv rest (update_time n s) g0 g1 hrest

/-- C4: starting from a session with elapsed time 0 and a non-negative
total duration, every sequence of `update_time` (tick) calls whose
instants respect the wall clock leaves the elapsed time in
`[0, total_time]`; quantifying over all admissible sequences covers the
state after each individual call. -/
theorem ticks_elapsed_within_bounds (s : MediaPlayerApp) (ns : List ℚ)
    (h0 : s.current_time = 0) (ht : 0 ≤ s.total_time)
    (hm : ticksMonotone ns s) :
    0 ≤ (ticks s ns).current_time ∧
      (ticks s ns).current_time ≤ (ticks s ns).total_time :=
  ticks_inv ns s (le_of_eq h0.symm) (h0 ▸ ht) hm

/-- C4 witness: a concrete playing session of duration 120 ticked at
instants 1, 2 and 7 stays within bounds. -/
theorem ticks_elapsed_within_bounds_witness :
    (let s : MediaPlayerApp :=
      { song_title := "Song Title", artist_name := "Unknown Artist",
        sinkPresent := true, current_time := 0, total_time := 120,
        start_time := some 0, volume := 1/2, songs := ["a.mp3"],
        selected_song := some 0, current_directory := "/music",
        is_playing := true, song_finished := false };
     0 ≤ (ticks s [1, 2, 7]).current_time ∧
       (ticks s [1, 2, 7]).current_time ≤ (ticks s [1, 2, 7]).total_time) :=
  ticks_elapsed_within_bounds _ [1, 2, 7] rfl (by decide) (by decide)

/-- C5: the function `update_time` is idempotent: a second call with the same
wall-clock instant changes nothing, because the first call re-anchors
`start_time` at that instant, making the second delta zero. -/
theorem update_time_idempotent (s : MediaPlayerApp) (now : ℚ) :
    update_time now (update_time now s) = update_time now s := by
  cases hs : s.start_time with
  | none =>
      simp [update_time, hs]
  | some a =>
      simp [update_time, hs, sub_self, min_assoc]

/-- C10: the function `update_progress` stores the given value as the elapsed time
verbatim — no clamping to `[0, total_time]` — and leaves every other
field unchanged, so values outside that range pass straight through this
public entry point. -/
theorem update_progress_stores_verbatim (s : MediaPlayerApp) (v : ℚ) :
    update_progress v s = { s with current_time := v } :=
  rfl

/-- Helper: the scan loop appends to its accumulator exactly the paths of
the readable entries that are files with extension `"mp3"`, in order. -/
theorem scanLoop_eq : ∀ (entries : List (Option DirEntry)) (acc : List String),
    scanLoop entries acc =
      acc ++ ((entries.filterMap id).filter
        (fun e => e.isFile && (e.extension.map (fun ext => ext == "mp3")).getD false)).map
          DirEntry.path
  | [], acc => by simp [scanLoop]
  | none :: rest, acc => by
      simpa [scanLoop] using scanLoop_eq rest acc
  | some e :: rest, acc => by
      by_cases he : (e.isFile && (e.extension.map (fun ext => ext == "mp3")).getD false) = true
      · simp [scanLoop, he, List.filter_cons, scanLoop_eq rest (acc ++ [e.path])]
      · simp [scanLoop, he, List.filter_cons, scanLoop_eq rest acc]

/-- C8: the directory scan returns exactly the readable immediate entries
that are files whose extension equals the case-sensitive string `"mp3"`,
keeping the order of the filesystem (it is a filter of the entry list), and an
unreadable directory (`read_dir` error) yields the empty list. -/
theorem read_songs_exactly_mp3_files :
    read_songs_from_directory none = [] ∧
    ∀ entries, read_songs_from_directory (some entries) =
      ((entries.filterMap id).filter
        (fun e => e.isFile && (e.extension.map (fun ext => ext == "mp3")).getD false)).map
          DirEntry.path := by
  refine ⟨rfl, fun entries => ?_⟩
  simpa using scanLoop_eq entries []

/-- C6: one tick on an anchored session adds, before the cap at
`total_time`, the wall-clock delta scaled by `total_time / 10` when the
track lasts at most 10 seconds, and the unscaled wall-clock delta
otherwise. -/
theorem update_time_short_track_normalization (s : MediaPlayerApp) (now a : ℚ)
    (hs : s.start_time = some a) :
    (s.total_time ≤ 10 →
      (update_time now s).current_time
        = min (s.current_time + (now - a) * (s.total_time / 10)) s.total_time) ∧
    (10 < s.total_time →
      (update_time now s).current_time
        = min (s.current_time + (now - a)) s.total_time) := by
  constructor
  · intro h
    simp [update_time, hs, h]
  · intro h
    simp [update_time, hs, not_le.mpr h]

/-- The player state right after start-up (`Default for MediaPlayerApp`,
lines 73-98), with an empty home-directory scan: total time 200, volume
0.5, nothing selected, not playing. -/
def baseState : MediaPlayerApp :=
  { song_title := "Song Title", artist_name := "Unknown Artist",
    sinkPresent := true, current_time := 0, total_time := 200,
    start_time := none, volume := 1/2, songs := [], selected_song := none,
    current_directory := "/home", is_playing := false,
    song_finished := false }

/-- C6 witness: an anchored session on an 8-second track, ticked at
instant 2 with anchor 1. -/
theorem update_time_short_track_normalization_witness :
    ({ baseState with
        total_time := 8, current_time := 3,
        start_time := some 1 } : MediaPlayerApp).start_time = some 1 ∧
    ({ baseState with
        total_time := 8, current_time := 3,
        start_time := some 1 } : MediaPlayerApp).total_time ≤ 10 ∧
    (update_time 2 { baseState with
        total_time := 8, current_time := 3,
        start_time := some 1 }).current_time
      = min ((3:ℚ) + (2 - 1) * (8 / 10)) 8 :=
  ⟨rfl, by decide,
    (update_time_short_track_normalization
      { baseState with total_time := 8, current_time := 3, start_time := some 1 }
      2 1 rfl).1 (by decide)⟩

/-- C7: calling `next_song` at the last library index stops playback (playing flag
false, elapsed time 0) instead of wrapping to index 0, and the selection
stays at the last index. -/
theorem next_song_at_last_index_stops (disk : String → FileInfo) (now : ℚ)
    (s : MediaPlayerApp) (i : ℕ)
    (hsel : s.selected_song = some i) (hlast : i + 1 = s.songs.length) :
    next_song disk now s = some { s with is_playing := false, current_time := 0 } ∧
      (next_song disk now s).map MediaPlayerApp.selected_song = some (some i) := by
  have hnot : ¬ (i + 1 < s.songs.length) := by omega
  constructor
  · simp [next_song, hsel, hnot, stop, stop_current_song]
  · simp [next_song, hsel, hnot, stop, stop_current_song]

/-- C7 witness: a two-track library with the second (last) track
selected. -/
theorem next_song_at_last_index_stops_witness :
    ({ baseState with
        songs := ["a.mp3", "b.mp3"], selected_song := some 1,
        is_playing := true, current_time := 42 } : MediaPlayerApp).selected_song
      = some 1 ∧
    next_song (fun _ => { opens := true, tag := none, mp3Duration := none,
                          decodes := true, decoderDuration := none,
                          fileName := "x" }) 9
      { baseState with
        songs := ["a.mp3", "b.mp3"], selected_song := some 1,
        is_playing := true, current_time := 42 }
      = some { baseState with
               songs := ["a.mp3", "b.mp3"],
               selected_song := some 1, is_playing := false,
               current_time := 0 } :=
  ⟨rfl,
    (next_song_at_last_index_stops _ 9
      { baseState with
        songs := ["a.mp3", "b.mp3"], selected_song := some 1,
        is_playing := true, current_time := 42 } 1 rfl rfl).1⟩

/-- C2 counterexample: changing the directory on a playing session (here
playing at elapsed time 5) replaces the library and clears the selection
but leaves the playing flag true and the elapsed time at 5, refuting the
claim that playback is stopped. -/
theorem update_directory_playing_counterexample :
    (update_directory (some "/music/new") (fun _ => some [])
      { baseState with
        songs := ["a.mp3"], selected_song := some 0,
        is_playing := true, current_time := 5,
        start_time := some 0 }).selected_song = none ∧
    (update_directory (some "/music/new") (fun _ => some [])
      { baseState with
        songs := ["a.mp3"], selected_song := some 0,
        is_playing := true, current_time := 5,
        start_time := some 0 }).songs = [] ∧
    ¬ ((update_directory (some "/music/new") (fun _ => some [])
      { baseState with
        songs := ["a.mp3"], selected_song := some 0,
        is_playing := true, current_time := 5,
        start_time := some 0 }).is_playing = false) ∧
    ¬ ((update_directory (some "/music/new") (fun _ => some [])
      { baseState with
        songs := ["a.mp3"], selected_song := some 0,
        is_playing := true, current_time := 5,
        start_time := some 0 }).current_time = 0) := by
  refine ⟨rfl, rfl, ?_, ?_⟩ <;> decide

/-- C2 (amended): for every chosen directory, `update_directory` replaces
the library with the scan of the new directory and clears the selection,
but does not stop playback: the playing flag and the elapsed time are
left unchanged. -/
theorem update_directory_replaces_library_keeps_playback (dir : String)
    (fsys : String → Option (List (Option DirEntry))) (s : MediaPlayerApp) :
    update_directory (some dir) fsys s
      = { s with
          current_directory := dir,
          songs := read_songs_from_directory (fsys dir),
          selected_song := none } ∧
    (update_directory (some dir) fsys s).is_playing = s.is_playing ∧
    (update_directory (some dir) fsys s).current_time = s.current_time :=
  ⟨rfl, rfl, rfl⟩

/-- The collaborator behaviour for a healthy 120-second track with no
readable ID3 tag. -/
def plainDisk : String → FileInfo := fun _ =>
  { opens := true, tag := none, mp3Duration := some 120, decodes := true,
    decoderDuration := some 120, fileName := "track.mp3" }

/-- A session playing the single 120-second track of `plainDisk`. -/
def longTrackState : MediaPlayerApp :=
  { baseState with
    songs := ["/music/track.mp3"], selected_song := some 0,
    total_time := 120, current_time := 30, start_time := some 0,
    is_playing := true }

/-- C1 counterexample: seeking to -5 on a 120-second track does not yield
an elapsed time of 0: the position is never clamped from below, and the
Rust code panics converting the negative position into a `Duration`
(`Duration::from_secs_f32`), modelled as `none`. -/
theorem seek_negative_not_clamped :
    seek plainDisk (-5) longTrackState = none := by
  decide

/-- C1 (amended): the function `seek` clamps the position only from above: for a
non-negative position p, the elapsed time becomes `min p total_time`, so
seeking to 500 on a 120-second track yields 120; a negative position is
not clamped to 0 (the duration conversion panics instead). -/
theorem seek_clamps_above_only (disk : String → FileInfo) (p : ℚ)
    (s : MediaPlayerApp) (i : ℕ) (path : String)
    (hsel : s.selected_song = some i) (hpath : s.songs.get? i = some path)
    (hsink : s.sinkPresent = true) (hopen : (disk path).opens = true)
    (hdec : (disk path).decodes = true) (hp : 0 ≤ p) :
    seek disk p s = some { s with current_time := min p s.total_time } := by
  have hpath' : s.songs[i]? = some path := by simpa using hpath
  simp [seek, hsel, hpath', hsink, hopen, hdec, not_lt.mpr hp]

/-- C1 witness: seeking to 500 on the 120-second track clamps the elapsed
time to 120. -/
theorem seek_clamps_above_only_witness :
    (0:ℚ) ≤ 500 ∧
    seek plainDisk 500 longTrackState
      = some { longTrackState with current_time := 120 } := by
  refine ⟨by decide, ?_⟩
  have h := seek_clamps_above_only plainDisk 500 longTrackState 0
    "/music/track.mp3" rfl rfl rfl rfl rfl (by decide)
  have hm : min (500:ℚ) longTrackState.total_time = 120 := by decide
  rw [h, hm]

/-- A disk on which the file of the selected track cannot be opened. -/
def unopenableDisk : String → FileInfo := fun _ =>
  { opens := false, tag := none, mp3Duration := none, decodes := false,
    decoderDuration := none, fileName := "bad.mp3" }

/-- A stopped session with one selected (unopenable) track. -/
def badTrackState : MediaPlayerApp :=
  { baseState with songs := ["/music/bad.mp3"], selected_song := some 0 }

/-- C3 counterexample: when opening the selected track fails,
`load_and_play_song` does set the sentinel title, but the unconditional
`play()` that follows raises the playing flag to true, refuting "the
playing flag remains false". -/
theorem load_and_play_failed_open_counterexample :
    (load_and_play_song unopenableDisk 7 badTrackState).map
        MediaPlayerApp.song_title = some "Failed to load song" ∧
    ¬ ((load_and_play_song unopenableDisk 7 badTrackState).map
        MediaPlayerApp.is_playing = some false) := by
  refine ⟨rfl, ?_⟩
  decide

/-- C3 (amended): when opening the file of the selected track fails,
`load_and_play_song` sets the displayed title to the sentinel
"Failed to load song", but the unconditional `play()` that follows sets
the playing flag to true and anchors the wall clock (no source was
appended to the sink, so nothing audible starts). -/
theorem load_and_play_failed_open_sets_flag (disk : String → FileInfo)
    (now : ℚ) (s : MediaPlayerApp) (i : ℕ) (path : String)
    (hsel : s.selected_song = some i) (hpath : s.songs.get? i = some path)
    (hsink : s.sinkPresent = true) (hopen : (disk path).opens = false) :
    load_and_play_song disk now s
      = some { s with
               current_time := 0,
               song_title := "Failed to load song",
               artist_name := "Unknown Artist",
               start_time := some now,
               is_playing := true } := by
  have hpath' : s.songs[i]? = some path := by simpa using hpath
  simp [load_and_play_song, load_song, stop_current_song, play,
        hsel, hpath', hsink, hopen]

/-- C3 witness: the concrete unopenable track. -/
theorem load_and_play_failed_open_sets_flag_witness :
    badTrackState.selected_song = some 0 ∧
    (unopenableDisk "/music/bad.mp3").opens = false ∧
    load_and_play_song unopenableDisk 7 badTrackState
      = some { badTrackState with
               current_time := 0,
               song_title := "Failed to load song",
               artist_name := "Unknown Artist",
               start_time := some 7,
               is_playing := true } :=
  ⟨rfl, rfl,
    load_and_play_failed_open_sets_flag unopenableDisk 7 badTrackState 0
      "/music/bad.mp3" rfl rfl rfl rfl⟩

/-- C9: when the file of the selected track opens (and decodes), a failed tag
read makes `load_song` display the bare file name as title and
"Unknown Artist" as artist; a successful tag read defaults each absent
field to "Unknown Title" / "Unknown Artist". -/
theorem load_song_metadata_fallbacks (disk : String → FileInfo)
    (s : MediaPlayerApp) (i : ℕ) (path : String)
    (hsel : s.selected_song = some i) (hpath : s.songs.get? i = some path)
    (hsink : s.sinkPresent = true) (hopen : (disk path).opens = true)
    (hdec : (disk path).decodes = true) :
    ((disk path).tag = none →
      (load_song disk s).map MediaPlayerApp.song_title
          = some (disk path).fileName ∧
      (load_song disk s).map MediaPlayerApp.artist_name
          = some "Unknown Artist") ∧
    (∀ t, (disk path).tag = some t →
      (load_song disk s).map MediaPlayerApp.song_title
          = some (t.title.getD "Unknown Title") ∧
      (load_song disk s).map MediaPlayerApp.artist_name
          = some (t.artist.getD "Unknown Artist")) := by
  have hpath' : s.songs[i]? = some path := by simpa using hpath
  constructor
  · intro htag
    constructor <;> simp [load_song, hsel, hpath', hsink, hopen, hdec, htag]
  · intro t htag
    constructor <;> simp [load_song, hsel, hpath', hsink, hopen, hdec, htag]

/-- C9 witness: loading the tagless 120-second track shows its file name
and the placeholder artist. -/
theorem load_song_metadata_fallbacks_witness :
    (plainDisk "/music/track.mp3").tag = none ∧
    (load_song plainDisk longTrackState).map MediaPlayerApp.song_title
        = some "track.mp3" ∧
    (load_song plainDisk longTrackState).map MediaPlayerApp.artist_name
        = some "Unknown Artist" := by
  refine ⟨rfl, ?_, ?_⟩
  · exact ((load_song_metadata_fallbacks plainDisk longTrackState 0
      "/music/track.mp3" rfl rfl rfl rfl rfl).1 rfl).1
  · exact ((load_song_metadata_fallbacks plainDisk longTrackState 0
      "/music/track.mp3" rfl rfl rfl rfl rfl).1 rfl).2
